import Mathlib

/-!
Formal model of the `oasara-landing` repository's client-side logic.

Two units are embedded:

* the `AdBanner` ad-delivery widget (`src/unnamed/part_001`): ad fetching
  (`fetchAd`), click tracking (`handleClick`), format dispatch and the four
  sub-renderers (`ImageAd`, `TextCardAd`, `RichCardAd`, `HtmlAd`), icon
  resolution (`getLucideIcon`), and HTML sanitization (`sanitizeList`);
* the landing page countdown (`src/src/App.tsx`): `calculateTimeLeft`.

Conventions of the embedding:

* TypeScript optional string fields become `Option String`; JavaScript
  truthiness on strings (where `""`, `null` and `undefined` are all falsy)
  is the `truthy` filter below.
* Asynchronous effects become pure functions from an explicit outcome of
  the remote call (an element of `FetchOutcome` / `TrackOutcome`) to the
  resulting component state plus the externally visible effects performed
  (network calls issued, `window.open` calls, warnings logged).  A thrown
  JavaScript exception that the source catches is represented by the
  corresponding outcome constructor, so every modelled function is total:
  "never throws to the caller" is reflected by totality plus the absence
  of any error-propagating result.
* HTML markup is an ordinary rose tree (`Html`).
-/

namespace Oasara

/-- JavaScript truthiness on an optional string: `undefined` / `null` and
the empty string are falsy, every other string is truthy.  `truthy o` is
the value when truthy, `none` otherwise. -/
def truthy : Option String → Option String
  | none => none
  | some s => if s = "" then none else some s

/-- HTML markup: a text node or an element with a tag name, an attribute
list (attribute name, attribute value) and child nodes. -/
inductive Html where
  | text (s : String)
  | elem (tag : String) (attrs : List (String × String)) (children : List Html)
deriving Repr

/-- `ALLOWED_TAGS` from `src/unnamed/part_001` line 73. -/
def ALLOWED_TAGS : List String := ["div", "span", "p", "a", "img", "strong", "em", "br"]

/-- `ALLOWED_ATTRS` from `src/unnamed/part_001` line 74. -/
def ALLOWED_ATTRS : List String := ["class", "style", "href", "src", "alt", "target", "rel"]

/-- Modelled from the spec: the body of `sanitizeHtml`
(`src/unnamed/part_001` lines 99-104) is a call into `DOMPurify.sanitize`,
an external npm dependency whose own code is not part of this repository;
only its configuration (`ALLOWED_TAGS`, `ALLOWED_ATTR`) is.  Following the
spec's description ("an allow-list of tags ... and attributes ... before
injection"), the sanitizer walks the markup keeping an element only when
its tag is in `ALLOWED_TAGS` (recursing into and keeping the children of a
dropped element, as DOMPurify does by default) and keeping an attribute
only when its name is in `ALLOWED_ATTRS`; text nodes pass through. -/
def sanitizeList : List Html → List Html
  | [] => []
  | .text s :: rest => .text s :: sanitizeList rest
  | .elem t as cs :: rest =>
    if t ∈ ALLOWED_TAGS then
      .elem t (as.filter fun p => decide (p.1 ∈ ALLOWED_ATTRS)) (sanitizeList cs)
        :: sanitizeList rest
    else
      sanitizeList cs ++ sanitizeList rest

/-- A list of markup nodes contains only allow-listed tags and attribute
names, at every depth. -/
def nodesOk : List Html → Bool
  | [] => true
  | .text _ :: rest => nodesOk rest
  | .elem t as cs :: rest =>
    decide (t ∈ ALLOWED_TAGS) && (as.all fun p => decide (p.1 ∈ ALLOWED_ATTRS))
      && nodesOk cs && nodesOk rest

theorem filter_all_self {α : Type} (p : α → Bool) (l : List α) :
    (l.filter p).all p = true := by
  induction l with
  | nil => rfl
  | cons x xs ih =>
    by_cases h : p x = true <;> simp [List.filter_cons, h, ih]

theorem nodesOk_append (xs ys : List Html) :
    nodesOk (xs ++ ys) = (nodesOk xs && nodesOk ys) := by
  induction xs with
  | nil => simp [nodesOk]
  | cons h t ih =>
    cases h <;> simp [nodesOk, ih, Bool.and_assoc]

theorem sanitize_nodesOk (ns : List Html) : nodesOk (sanitizeList ns) = true := by
  induction ns using sanitizeList.induct with
  | case1 => simp [sanitizeList, nodesOk]
  | case2 s rest ih => simpa [sanitizeList, nodesOk] using ih
  | case3 t as cs rest h ihcs ihrest =>
    simp [sanitizeList, h, nodesOk, ihcs, ihrest, filter_all_self]
  | case4 t as cs rest h ihcs ihrest =>
    simp [sanitizeList, h, nodesOk_append, ihcs, ihrest]

/-- The `AdData` descriptor (`src/unnamed/part_001` lines 29-44).  `format`
and `campaign_type` are kept as raw strings because the descriptor arrives
from the network unvalidated (the render dispatch compares `format` against
string literals, so unrecognized values are representable); `html_content`
holds parsed markup. -/
structure AdData where
  creative_id : String
  campaign_id : String
  campaign_name : String
  campaign_type : String
  format : String
  image_url : Option String := none
  alt_text : Option String := none
  headline : Option String := none
  description : Option String := none
  cta_text : Option String := none
  icon : Option String := none
  bg_color : Option String := none
  html_content : Option (List Html) := none
  click_url : String
deriving Repr

/-- JavaScript `iconName.split('-')` on the character list: splits at every
`'-'`, keeping empty fragments (so `"a--b"` gives `["a", "", "b"]` and `""`
gives `[""]`, as in JavaScript). -/
def splitDash : List Char → List (List Char)
  | [] => [[]]
  | c :: rest =>
    match splitDash rest with
    | [] => [[]]
    | w :: ws => if c = '-' then [] :: w :: ws else (c :: w) :: ws

/-- Kebab-case word capitalization: `word.charAt(0).toUpperCase() + word.slice(1)`
(`src/unnamed/part_001` line 89); on the empty word `charAt(0)` is `""` and
the result is `""`. -/
def capWord : List Char → List Char
  | [] => []
  | c :: cs => c.toUpper :: cs

/-- Kebab-case to PascalCase: `iconName.split('-').map(...).join('')`
(`src/unnamed/part_001` lines 87-90). -/
def toPascalCase (s : String) : String :=
  String.mk (((splitDash s.data).map capWord).flatten)

/-- `getLucideIcon` (`src/unnamed/part_001` lines 83-94).  The icon library
(`lucide-react`, an external dependency) is abstracted as a lookup function
`icons` from PascalCase identifiers to icon components; a component is
represented by its name.  `if (!iconName) return null` is the empty-string
guard; `IconComponent || null` is the `Option` result of the lookup. -/
def getLucideIcon (icons : String → Option String) (iconName : String) : Option String :=
  if iconName = "" then none
  else icons (toPascalCase iconName)

/-- Default background of the text card (`src/unnamed/part_001` line 290). -/
def textCardDefaultBg : String := "linear-gradient(135deg, #1a1a1a 0%, #2d2d2d 100%)"

/-- Default background of the rich card (`src/unnamed/part_001` line 344). -/
def richCardDefaultBg : String :=
  "linear-gradient(135deg, rgba(16,185,129,0.1) 0%, rgba(5,150,105,0.1) 100%)"

/-- The output of one format-specific sub-renderer, keeping the data-bearing
parts of the JSX (link target, image source and alt text, the optional text
fields that render only when truthy, the resolved icon, injected markup). -/
inductive SubRender where
  | imageAd (src : Option String) (alt : String) (href : String)
  | textCardAd (href : String) (bg : String)
      (headline description cta : Option String)
  | richCardAd (href : String) (bg : String) (icon : Option String)
      (headline description cta : Option String)
  | htmlAd (markup : List Html)
deriving Repr

/-- `ImageAd` (`src/unnamed/part_001` lines 253-275): clickable image, alt
text falling back to the campaign name (`ad.alt_text || ad.campaign_name`). -/
def ImageAd (ad : AdData) : SubRender :=
  .imageAd ad.image_url ((truthy ad.alt_text).getD ad.campaign_name) ad.click_url

/-- `TextCardAd` (`src/unnamed/part_001` lines 280-324): background from
`ad.bg_color ||` default; headline, description and CTA render only when
truthy. -/
def TextCardAd (ad : AdData) : SubRender :=
  .textCardAd ad.click_url ((truthy ad.bg_color).getD textCardDefaultBg)
    (truthy ad.headline) (truthy ad.description) (truthy ad.cta_text)

/-- `RichCardAd` (`src/unnamed/part_001` lines 329-395): like the text card
plus an icon block; `ad.icon ? getLucideIcon(ad.icon) : null` resolves the
icon, and the block renders only when the resolution succeeded. -/
def RichCardAd (icons : String → Option String) (ad : AdData) : SubRender :=
  .richCardAd ad.click_url ((truthy ad.bg_color).getD richCardDefaultBg)
    (match truthy ad.icon with
     | some name => getLucideIcon icons name
     | none => none)
    (truthy ad.headline) (truthy ad.description) (truthy ad.cta_text)

/-- `HtmlAd` (`src/unnamed/part_001` lines 400-411): injects
`ad.html_content ? sanitizeHtml(ad.html_content) : ''` via
`dangerouslySetInnerHTML` — the sanitized markup is the only markup the
component ever injects. -/
def HtmlAd (ad : AdData) : SubRender :=
  .htmlAd (match ad.html_content with
           | some h => sanitizeList h
           | none => [])

/-- The format dispatch of the render body (`src/unnamed/part_001` lines
222-236): the four mutually exclusive `ad.format === '...'` guards; a
format matching none of them selects no sub-renderer. -/
def selectSub (icons : String → Option String) (ad : AdData) : Option SubRender :=
  if ad.format = "image" then some (ImageAd ad)
  else if ad.format = "text_card" then some (TextCardAd ad)
  else if ad.format = "rich_card" then some (RichCardAd icons ad)
  else if ad.format = "html" then some (HtmlAd ad)
  else none

/-- What the component returns from render: the loading skeleton, the
supplied fallback, `null`, or the ad container `div` (with its
`data-creative-id` / `data-campaign-type` attributes) holding the selected
sub-renderer's output, if any. -/
inductive RenderResult where
  | loadingSkeleton
  | fallbackContent (content : String)
  | nothing
  | container (format : String) (campaignType : String) (creativeId : String)
      (sub : Option SubRender)
deriving Repr

/-- The component's local state (`src/unnamed/part_001` lines 118-120). -/
structure FetchState where
  ad : Option AdData
  loading : Bool
  error : Option String
deriving Repr

/-- Initial state: `useState(null)`, `useState(true)`, `useState(null)`. -/
def initState : FetchState := { ad := none, loading := true, error := none }

/-- `fallback ? <>{fallback}</> : null` (`src/unnamed/part_001` line 212). -/
def fallbackOrNothing : Option String → RenderResult
  | some f => .fallbackContent f
  | none => .nothing

/-- The render body of `AdBanner` (`src/unnamed/part_001` lines 201-238):
loading renders the skeleton; no ad renders the fallback or nothing; an ad
renders the container with the format-dispatched sub-renderer.  The
`error` state field is not read anywhere in the render body. -/
def AdBanner_render (icons : String → Option String) (s : FetchState)
    (fallback : Option String) : RenderResult :=
  if s.loading then .loadingSkeleton
  else
    match s.ad with
    | none => fallbackOrNothing fallback
    | some ad => .container ad.format ad.campaign_type ad.creative_id (selectSub icons ad)

/-- Outcome of one `serve-ad` request as observed by the `fetchAd` closure
(`src/unnamed/part_001` lines 131-157): the fetch promise rejects
(`netError`), the response is non-ok so `throw new Error(\x7bHTTP status\x7d)`
fires (`httpError`), `response.json()` rejects (`badJson`), or a JSON body
is obtained whose `ad` field is an ad or missing/null (`ok`). -/
inductive FetchOutcome where
  | netError (msg : String)
  | httpError (status : Nat)
  | badJson (msg : String)
  | ok (ad : Option AdData)
deriving Repr

/-- The outcomes the spec calls fetch failures: rejection, non-2xx, parse
failure. -/
def outcomeFailed : FetchOutcome → Bool
  | .ok _ => false
  | _ => true

/-- State update performed when a `serve-ad` request settles
(`src/unnamed/part_001` lines 143-157): `setAd` only when `data.ad` is
truthy, `setError` on any caught exception, `setLoading(false)` in
`finally` — all exceptions are caught locally, so this is a total
function and nothing propagates to the caller. -/
def applyResolve (s : FetchState) : FetchOutcome → FetchState
  | .ok (some ad) => { s with ad := some ad, loading := false }
  | .ok none => { s with loading := false }
  | .netError m => { s with error := some m, loading := false }
  | .httpError st => { s with error := some ("HTTP " ++ toString st), loading := false }
  | .badJson m => { s with error := some m, loading := false }

/-- One `serve-ad` network request, recorded by its inputs (the source
builds the URL from `supabaseUrl`, `site`, `zone` and sends the key in the
auth headers, `src/unnamed/part_001` lines 132-141). -/
structure AdRequest where
  base : String
  key : String
  site : String
  zone : String
deriving Repr

/-- Everything observable from one run of the `fetchAd` closure. -/
structure FetchEffects where
  calls : List AdRequest
  warnings : List String
  state : FetchState
deriving Repr

/-- The `fetchAd` closure (`src/unnamed/part_001` lines 124-158): when
`supabaseUrl` or `supabaseKey` is falsy (absent configuration), warn, set
loading false and return without any network call; otherwise issue the
request and settle with the given outcome. -/
def fetchAd (supabaseUrl supabaseKey site zone : String) (outcome : FetchOutcome)
    (s : FetchState) : FetchEffects :=
  if supabaseUrl = "" || supabaseKey = "" then
    { calls := []
      warnings := ["AdBanner: Missing Supabase configuration"]
      state := { s with loading := false } }
  else
    { calls := [{ base := supabaseUrl, key := supabaseKey, site := site, zone := zone }]
      warnings := []
      state := applyResolve s outcome }

/-- Interleaving events of the effect's lifetime: a re-run of the effect
starts request `id` (`src/unnamed/part_001` lines 123-161 — the effect has
no cleanup function, no abort controller and no staleness flag, so
starting a request changes nothing in the state), and a request settles
with some outcome, applied unconditionally whenever it arrives. -/
inductive FetchEv where
  | start (id : Nat)
  | resolve (id : Nat) (outcome : FetchOutcome)

/-- One event step of the fetch lifecycle. -/
def stepEv (s : FetchState) : FetchEv → FetchState
  | .start _ => s
  | .resolve _ o => applyResolve s o

/-- A whole interleaving. -/
def runEvents (s : FetchState) (evs : List FetchEv) : FetchState :=
  evs.foldl stepEv s

/-- Outcome of one `track-click` request as observed by `handleClick`
(`src/unnamed/part_001` lines 171-188): the fetch promise rejects
(`netError`); the response arrives but `response.json()` rejects — a
malformed body (`badJson`); or `response.json()` yields a body whose
`redirect_url` field is the given optional string (`json`).  The source
never reads the response status, so the status is carried only to state
which outcomes the spec counts as failures. -/
inductive TrackOutcome where
  | netError
  | badJson (status : Nat)
  | json (status : Nat) (redirect_url : Option String)
deriving DecidableEq, Repr

/-- The tracking-call failures enumerated by the spec: network error,
non-success HTTP status, malformed response body. -/
def trackingFailed : TrackOutcome → Bool
  | .netError => true
  | .badJson _ => true
  | .json st _ => !decide (200 ≤ st ∧ st < 300)

/-- One `window.open(url, '_blank', 'noopener,noreferrer')` call. -/
structure OpenCall where
  url : String
  target : String
  features : String
deriving DecidableEq, Repr

/-- The only way the component ever opens a URL
(`src/unnamed/part_001` lines 192 and 197). -/
def openNew (url : String) : OpenCall :=
  { url := url, target := "_blank", features := "noopener,noreferrer" }

/-- Everything observable from one run of `handleClick`. -/
structure ClickEffects where
  prevented : Bool
  opens : List OpenCall
deriving DecidableEq, Repr

/-- `handleClick` (`src/unnamed/part_001` lines 164-199): `if (!ad) return`
leaves the default navigation alone; otherwise the default is prevented and
the tracking POST is issued.  Inside the `try`, a resolved response has its
body parsed and `if (data.redirect_url)` (string truthiness) opens the
redirect; the `catch` — reached only when the fetch or the body parse
throws — opens `ad.click_url`.  A settled response with a non-success
status does not throw because the status is never checked. -/
def handleClick (ad : Option AdData) (outcome : TrackOutcome) : ClickEffects :=
  match ad with
  | none => { prevented := false, opens := [] }
  | some ad =>
    { prevented := true
      opens :=
        match outcome with
        | .netError => [openNew ad.click_url]
        | .badJson _ => [openNew ad.click_url]
        | .json _ r =>
          match truthy r with
          | some url => [openNew url]
          | none => [] }

/-- How many of the `window.open` calls target `url`. -/
def countOpens (url : String) (opens : List OpenCall) : Nat :=
  (opens.filter fun c => decide (c.url = url)).length

/-- The countdown display state (`src/src/App.tsx` lines 13-18). -/
structure TimeLeft where
  days : Int
  hours : Int
  minutes : Int
  seconds : Int
deriving DecidableEq, Repr

/-- Initial countdown display: all zeros (`src/src/App.tsx` lines 13-18). -/
def initTimeLeft : TimeLeft := { days := 0, hours := 0, minutes := 0, seconds := 0 }

/-- `calculateTimeLeft` (`src/src/App.tsx` lines 29-41) as a function of
the launch instant and the current instant, both in epoch milliseconds,
and of the previously displayed value: `setTimeLeft` fires only when
`difference > 0`, so otherwise the display keeps its previous value.
With a positive dividend and positive divisors, JavaScript
`Math.floor(a / b)` and `a % b` agree with Lean's integer `/` and `%`. -/
def calculateTimeLeft (launchMs nowMs : Int) (prev : TimeLeft) : TimeLeft :=
  let difference := launchMs - nowMs
  if difference > 0 then
    { days := difference / (1000 * 60 * 60 * 24)
      hours := difference % (1000 * 60 * 60 * 24) / (1000 * 60 * 60)
      minutes := difference % (1000 * 60 * 60) / (1000 * 60)
      seconds := difference % (1000 * 60) / 1000 }
  else prev

/-- The display invariant claimed for the countdown. -/
def timeLeftBounds (t : TimeLeft) : Prop :=
  0 ≤ t.days ∧ 0 ≤ t.hours ∧ t.hours < 24 ∧
    0 ≤ t.minutes ∧ t.minutes < 60 ∧ 0 ≤ t.seconds ∧ t.seconds < 60

/-! ### Concrete fixtures used by witnesses and counterexamples -/

/-- An icon registry that resolves nothing. -/
def icons0 : String → Option String := fun _ => none

/-- A concrete image-format descriptor. -/
def adEx : AdData :=
  { creative_id := "cr-1", campaign_id := "ca-1", campaign_name := "Example"
    campaign_type := "sponsor", format := "image"
    image_url := some "https://example.com/banner.png"
    click_url := "https://example.com/dest" }

/-- Descriptor returned by the first (stale) request in the race trace. -/
def adA : AdData :=
  { creative_id := "cr-A", campaign_id := "ca-A", campaign_name := "First"
    campaign_type := "sponsor", format := "image"
    click_url := "https://example.com/a" }

/-- Descriptor returned by the second (fresh) request in the race trace. -/
def adB : AdData :=
  { creative_id := "cr-B", campaign_id := "ca-B", campaign_name := "Second"
    campaign_type := "house", format := "image"
    click_url := "https://example.com/b" }

/-- A raw-html descriptor whose payload carries a `<script>` tag and an
`onclick` attribute. -/
def adHtml : AdData :=
  { creative_id := "cr-h", campaign_id := "ca-h", campaign_name := "HtmlEx"
    campaign_type := "house", format := "html"
    html_content := some
      [Html.elem "script" [] [Html.text "alert(1)"],
       Html.elem "div" [("onclick", "steal()"), ("class", "ad")] [Html.text "hi"]]
    click_url := "https://example.com/h" }

/-- Settled state displaying `adHtml`. -/
def sHtml : FetchState := { ad := some adHtml, loading := false, error := none }

/-- A descriptor with an unrecognized format value. -/
def adVideo : AdData :=
  { creative_id := "cr-v", campaign_id := "ca-v", campaign_name := "VideoEx"
    campaign_type := "affiliate", format := "video"
    click_url := "https://example.com/v" }

/-- Settled state displaying `adVideo`. -/
def sVideo : FetchState := { ad := some adVideo, loading := false, error := none }

/-- A rich-card descriptor with an icon name no registry entry matches. -/
def adIcon : AdData :=
  { creative_id := "cr-i", campaign_id := "ca-i", campaign_name := "IconEx"
    campaign_type := "sponsor", format := "rich_card"
    icon := some "does-not-exist", headline := some "Hello"
    click_url := "https://example.com/i" }

/-! ### Claims -/

/-- C1 (counterexample): a tracking response with HTTP status 500 whose body
is well-formed JSON without a `redirect_url` is a failure of the tracking
call, yet `handleClick` — which never checks `response.ok` and whose `catch`
is therefore not reached — opens no URL at all: the ad's destination
`click_url` is opened zero times, not exactly once, and the user is blocked
(the default navigation was prevented). -/
theorem trackClick_noncatch_counterexample :
    trackingFailed (TrackOutcome.json 500 none) = true ∧
    (handleClick (some adEx) (TrackOutcome.json 500 none)).prevented = true ∧
    (handleClick (some adEx) (TrackOutcome.json 500 none)).opens = [] ∧
    countOpens adEx.click_url (handleClick (some adEx) (TrackOutcome.json 500 none)).opens
      = 0 := by
  refine ⟨rfl, rfl, rfl, rfl⟩

/-- C1 (amended): only when the tracking call throws — the POST rejects
(network error) or its response body fails to parse (malformed body) — does
the click handler fall back to opening the ad's own `click_url`, exactly
once; a non-success HTTP status whose body parses as JSON is handled like a
success (its `redirect_url` is opened if present, nothing otherwise), so
that failure mode can block the user. -/
theorem trackClick_exception_fallback (ad : AdData) (o : TrackOutcome)
    (h : o = TrackOutcome.netError ∨ ∃ st, o = TrackOutcome.badJson st) :
    (handleClick (some ad) o).opens = [openNew ad.click_url] ∧
    countOpens ad.click_url (handleClick (some ad) o).opens = 1 := by
  rcases h with h | ⟨st, h⟩ <;> subst h <;>
    simp [handleClick, countOpens, openNew]

/-- C1 (witness): instantiation at a network error. -/
theorem trackClick_exception_fallback_witness :
    (handleClick (some adEx) TrackOutcome.netError).opens = [openNew adEx.click_url] ∧
    countOpens adEx.click_url (handleClick (some adEx) TrackOutcome.netError).opens = 1 :=
  trackClick_exception_fallback adEx TrackOutcome.netError (Or.inl rfl)

/-- C2: on every code path of the component's render on which markup is
injected — i.e. whenever the render result contains an `htmlAd`
sub-render — the injected markup satisfies the allow-list: every tag is
among `div,span,p,a,img,strong,em,br` and every attribute name among
`class,style,href,src,alt,target,rel`, at every depth, so a disallowed tag
such as `script` or attribute such as `onclick` in the payload is absent
from the rendered markup. -/
theorem html_injection_sanitized (icons : String → Option String) (s : FetchState)
    (fb : Option String) (fmt ct cid : String) (markup : List Html)
    (h : AdBanner_render icons s fb =
      RenderResult.container fmt ct cid (some (SubRender.htmlAd markup))) :
    nodesOk markup = true := by
  unfold AdBanner_render at h
  split at h
  · simp at h
  · split at h
    · cases fb <;> simp [fallbackOrNothing] at h
    · rename_i ad _
      simp only [RenderResult.container.injEq] at h
      obtain ⟨-, -, -, hsub⟩ := h
      unfold selectSub at hsub
      split at hsub
      · simp [ImageAd] at hsub
      · split at hsub
        · simp [TextCardAd] at hsub
        · split at hsub
          · simp [RichCardAd] at hsub
          · split at hsub
            · simp only [Option.some.injEq, HtmlAd, SubRender.htmlAd.injEq] at hsub
              cases hc : ad.html_content with
              | none =>
                rw [hc] at hsub
                simp only at hsub
                rw [← hsub]
                simp [nodesOk]
              | some hm =>
                rw [hc] at hsub
                simp only at hsub
                rw [← hsub]
                exact sanitize_nodesOk hm
            · simp at hsub

/-- C2 (witness): rendering `adHtml` injects exactly the sanitized markup —
the `<script>` element and the `onclick` attribute are gone — and that
markup passes the allow-list check. -/
theorem html_injection_sanitized_witness :
    nodesOk [Html.text "alert(1)", Html.elem "div" [("class", "ad")] [Html.text "hi"]]
      = true :=
  html_injection_sanitized icons0 sHtml none "html" "house" "cr-h"
    [Html.text "alert(1)", Html.elem "div" [("class", "ad")] [Html.text "hi"]]
    (by simp [AdBanner_render, sHtml, adHtml, selectSub, HtmlAd,
          sanitizeList, ALLOWED_TAGS, ALLOWED_ATTRS])

/-- C3 (counterexample): the fetch effect installs no cleanup, abort
controller or staleness flag, so a stale in-flight response is acted upon
whenever it resolves.  In the trace below request 1 starts, the props
change and request 2 starts, request 2 resolves with `adB`, and then the
stale request 1 resolves with `adA` — and `adA`, the stale response, ends
up as the displayed ad (it differs from `adB`). -/
theorem stale_response_displayed :
    (runEvents initState
        [FetchEv.start 1, FetchEv.start 2,
         FetchEv.resolve 2 (FetchOutcome.ok (some adB)),
         FetchEv.resolve 1 (FetchOutcome.ok (some adA))]).ad = some adA ∧
    adA.creative_id ≠ adB.creative_id := by
  exact ⟨rfl, by decide⟩

/-- C3 (amended): the component does not discard stale responses; it is
last-response-wins, not last-request-wins: after any interleaving of
starts and resolutions, the displayed ad is the one carried by whichever
ad-bearing response resolved last, stale or not. -/
theorem last_response_wins (s : FetchState) (evs : List FetchEv) (id : Nat) (a : AdData) :
    (runEvents s (evs ++ [FetchEv.resolve id (FetchOutcome.ok (some a))])).ad = some a := by
  simp [runEvents, List.foldl_append, stepEv, applyResolve]

/-- C4: for every failing fetch outcome — rejection, non-2xx status (which
the source turns into a thrown `HTTP <status>` error), or JSON parse
failure — the run of `fetchAd` from the initial state yields no ad and a
settled (non-loading) state, and the component then renders the supplied
fallback or nothing; the update is a total function (the source catches
every exception locally), so nothing is thrown to the caller. -/
theorem fetch_failure_degrades (supabaseUrl supabaseKey site zone : String)
    (o : FetchOutcome) (icons : String → Option String) (fb : Option String)
    (hu : supabaseUrl ≠ "") (hk : supabaseKey ≠ "") (ho : outcomeFailed o = true) :
    (fetchAd supabaseUrl supabaseKey site zone o initState).state.ad = none ∧
    (fetchAd supabaseUrl supabaseKey site zone o initState).state.loading = false ∧
    AdBanner_render icons (fetchAd supabaseUrl supabaseKey site zone o initState).state fb
      = fallbackOrNothing fb := by
  cases o with
  | ok a => simp [outcomeFailed] at ho
  | netError m => simp [fetchAd, hu, hk, applyResolve, initState, AdBanner_render]
  | httpError st => simp [fetchAd, hu, hk, applyResolve, initState, AdBanner_render]
  | badJson m => simp [fetchAd, hu, hk, applyResolve, initState, AdBanner_render]

/-- C4 (witness): instantiation at an HTTP 500 response with a fallback. -/
theorem fetch_failure_degrades_witness :
    (fetchAd "https://ads.example" "key" "oasara" "FOOTER"
        (FetchOutcome.httpError 500) initState).state.ad = none ∧
    (fetchAd "https://ads.example" "key" "oasara" "FOOTER"
        (FetchOutcome.httpError 500) initState).state.loading = false ∧
    AdBanner_render icons0
        (fetchAd "https://ads.example" "key" "oasara" "FOOTER"
          (FetchOutcome.httpError 500) initState).state (some "fallback")
      = fallbackOrNothing (some "fallback") :=
  fetch_failure_degrades "https://ads.example" "key" "oasara" "FOOTER"
    (FetchOutcome.httpError 500) icons0 (some "fallback")
    (by decide) (by decide) rfl

/-- C5: whenever the endpoint base URL or key is absent (falsy), the run of
the fetch closure issues zero network requests, logs exactly the missing
configuration warning, sets no error, leaves the state ad-less, and the
component renders the supplied fallback or nothing — exactly as if no ad
was returned. -/
theorem missing_config_skips_network (supabaseUrl supabaseKey site zone : String)
    (o : FetchOutcome) (icons : String → Option String) (fb : Option String)
    (h : supabaseUrl = "" ∨ supabaseKey = "") :
    (fetchAd supabaseUrl supabaseKey site zone o initState).calls = [] ∧
    (fetchAd supabaseUrl supabaseKey site zone o initState).warnings
      = ["AdBanner: Missing Supabase configuration"] ∧
    (fetchAd supabaseUrl supabaseKey site zone o initState).state.error = none ∧
    (fetchAd supabaseUrl supabaseKey site zone o initState).state.ad = none ∧
    AdBanner_render icons (fetchAd supabaseUrl supabaseKey site zone o initState).state fb
      = fallbackOrNothing fb := by
  rcases h with h | h <;> subst h <;>
    simp [fetchAd, initState, AdBanner_render]

/-- C5 (witness): instantiation at an empty base URL. -/
theorem missing_config_skips_network_witness :
    (fetchAd "" "key" "oasara" "FOOTER" (FetchOutcome.netError "x") initState).calls = [] ∧
    (fetchAd "" "key" "oasara" "FOOTER" (FetchOutcome.netError "x") initState).warnings
      = ["AdBanner: Missing Supabase configuration"] ∧
    (fetchAd "" "key" "oasara" "FOOTER" (FetchOutcome.netError "x") initState).state.error
      = none ∧
    (fetchAd "" "key" "oasara" "FOOTER" (FetchOutcome.netError "x") initState).state.ad
      = none ∧
    AdBanner_render icons0
        (fetchAd "" "key" "oasara" "FOOTER" (FetchOutcome.netError "x") initState).state none
      = fallbackOrNothing none :=
  missing_config_skips_network "" "key" "oasara" "FOOTER" (FetchOutcome.netError "x")
    icons0 none (Or.inl rfl)

/-- C6: for every click whose tracking response body parses and carries a
(truthy) `redirect_url`, the handler opens exactly that URL — with target
`_blank` and features `noopener,noreferrer`, a new, unreferenced,
no-opener browsing context — after preventing the default navigation, and
the ad's own `click_url` is not opened (when the two differ). -/
theorem redirect_url_opened (ad : AdData) (st : Nat) (url : String) (h : url ≠ "") :
    (handleClick (some ad) (TrackOutcome.json st (some url))).opens = [openNew url] ∧
    (handleClick (some ad) (TrackOutcome.json st (some url))).prevented = true ∧
    (url ≠ ad.click_url →
      countOpens ad.click_url
        (handleClick (some ad) (TrackOutcome.json st (some url))).opens = 0) := by
  refine ⟨?_, rfl, ?_⟩
  · simp [handleClick, truthy, h]
  · intro hne
    simp [handleClick, truthy, h, countOpens, openNew, hne]

/-- C6 (witness): instantiation at a 200 response carrying a redirect. -/
theorem redirect_url_opened_witness :
    (handleClick (some adEx)
        (TrackOutcome.json 200 (some "https://r.example/x"))).opens
      = [openNew "https://r.example/x"] ∧
    countOpens adEx.click_url
        (handleClick (some adEx)
          (TrackOutcome.json 200 (some "https://r.example/x"))).opens = 0 :=
  ⟨(redirect_url_opened adEx 200 "https://r.example/x" (by decide)).1,
   (redirect_url_opened adEx 200 "https://r.example/x" (by decide)).2.2 (by decide)⟩

/-- C7: a settled state holding an ad whose format matches none of the four
recognized formats renders the container with no sub-renderer selected —
no ad content and no error (the render function is total and the dispatch
falls through every guard). -/
theorem unrecognized_format_no_sub (icons : String → Option String)
    (s : FetchState) (fb : Option String) (ad : AdData)
    (hl : s.loading = false) (ha : s.ad = some ad)
    (hf : ad.format ∉ (["image", "text_card", "rich_card", "html"] : List String)) :
    AdBanner_render icons s fb
      = RenderResult.container ad.format ad.campaign_type ad.creative_id none := by
  simp only [List.mem_cons, List.not_mem_nil, or_false, not_or] at hf
  obtain ⟨h1, h2, h3, h4⟩ := hf
  simp [AdBanner_render, hl, ha, selectSub, h1, h2, h3, h4]

/-- C7 (witness): instantiation at format `"video"`. -/
theorem unrecognized_format_no_sub_witness :
    AdBanner_render icons0 sVideo none
      = RenderResult.container adVideo.format adVideo.campaign_type
          adVideo.creative_id none :=
  unrecognized_format_no_sub icons0 sVideo none adVideo rfl rfl (by decide)

/-- C8: icon resolution converts the kebab-case token by capitalizing each
hyphen-delimited word and concatenating (`"shield-check"` is looked up as
`ShieldCheck`), the lookup for a non-empty name is made under exactly that
identifier, and when the lookup fails the rich card renders with no icon
block and all its other fields intact — no error. -/
theorem icon_resolution (icons : String → Option String) (ad : AdData) (name : String)
    (hik : ad.icon = some name) (hne : name ≠ "")
    (hmiss : icons (toPascalCase name) = none) :
    toPascalCase "shield-check" = "ShieldCheck" ∧
    getLucideIcon icons name = icons (toPascalCase name) ∧
    RichCardAd icons ad
      = SubRender.richCardAd ad.click_url ((truthy ad.bg_color).getD richCardDefaultBg)
          none (truthy ad.headline) (truthy ad.description) (truthy ad.cta_text) := by
  refine ⟨by decide, ?_, ?_⟩
  · simp [getLucideIcon, hne]
  · simp [RichCardAd, hik, truthy, hne, getLucideIcon, hmiss]

/-- C8 (witness): instantiation at the unresolvable name
`"does-not-exist"` and the empty registry. -/
theorem icon_resolution_witness :
    toPascalCase "shield-check" = "ShieldCheck" ∧
    getLucideIcon icons0 "does-not-exist" = icons0 (toPascalCase "does-not-exist") ∧
    RichCardAd icons0 adIcon
      = SubRender.richCardAd adIcon.click_url
          ((truthy adIcon.bg_color).getD richCardDefaultBg) none
          (truthy adIcon.headline) (truthy adIcon.description) (truthy adIcon.cta_text) :=
  icon_resolution icons0 adIcon "does-not-exist" rfl (by decide) rfl

/-- C9: the render body never reads the `error` state field — the rendered
output is identical whatever error is stored — and in the failure states
(settled, no ad) the only thing rendered is the supplied fallback or
nothing, so no error is ever surfaced to the user as visible text. -/
theorem no_error_text_surfaced (icons : String → Option String) (ad : Option AdData)
    (loading : Bool) (e : Option String) (fb : Option String) :
    AdBanner_render icons { ad := ad, loading := loading, error := e } fb
      = AdBanner_render icons { ad := ad, loading := loading, error := none } fb ∧
    (loading = false → ad = none →
      AdBanner_render icons { ad := ad, loading := loading, error := e } fb
        = fallbackOrNothing fb) := by
  constructor
  · rfl
  · intro hl ha
    subst hl; subst ha
    simp [AdBanner_render]

/-- C9 (witness): a settled, ad-less state storing the error `"boom"`
renders nothing; the stored error is invisible. -/
theorem no_error_text_surfaced_witness :
    AdBanner_render icons0 { ad := none, loading := false, error := some "boom" } none
      = fallbackOrNothing none :=
  (no_error_text_surfaced icons0 none false (some "boom") none).2 rfl rfl

/-- C10: one `calculateTimeLeft` tick preserves the display invariant
(`days ≥ 0`, `0 ≤ hours < 24`, `0 ≤ minutes < 60`, `0 ≤ seconds < 60`),
the display is updated only while the launch target lies strictly in the
future — once the target has passed the displayed values are exactly the
previous ones, so they never change and never go negative — and the
initial all-zero display satisfies the invariant. -/
theorem countdown_display_invariant (launchMs nowMs : Int) (prev : TimeLeft)
    (hprev : timeLeftBounds prev) :
    timeLeftBounds (calculateTimeLeft launchMs nowMs prev) ∧
    (launchMs - nowMs ≤ 0 → calculateTimeLeft launchMs nowMs prev = prev) ∧
    timeLeftBounds initTimeLeft := by
  refine ⟨?_, ?_, by simp [timeLeftBounds, initTimeLeft]⟩
  · unfold calculateTimeLeft
    by_cases hpos : launchMs - nowMs > 0
    · simp only [hpos, if_true, timeLeftBounds]
      refine ⟨?_, ?_, ?_, ?_, ?_, ?_, ?_⟩ <;> omega
    · simpa [hpos] using hprev
  · intro hle
    have hneg : ¬launchMs - nowMs > 0 := by omega
    simp [calculateTimeLeft, hneg]

/-- C10 (witness): instantiation one hour and one second before launch,
starting from the initial display. -/
theorem countdown_display_invariant_witness :
    timeLeftBounds (calculateTimeLeft 3601000 0 initTimeLeft) ∧
    ((3601000 : Int) - 0 ≤ 0 → calculateTimeLeft 3601000 0 initTimeLeft = initTimeLeft) ∧
    timeLeftBounds initTimeLeft :=
  countdown_display_invariant 3601000 0 initTimeLeft
    (by simp [timeLeftBounds, initTimeLeft])

end Oasara

